import Mathlib

/-
Verification of the timer subsystem of the Time-Tracker dashboard
(src/app.py) against its natural-language specification.

The embedding is shallow: Python functions become Lean functions, the
Streamlit session state and the two database tables (active_timers,
trello_time_tracking) become explicit record/list state threaded through
the transitions.  Strings are lists of characters so that the
underscore-splitting of timer keys can be reasoned about directly.
Datetimes are integer microsecond counts together with an optional fixed
utc-offset (the app uses a fixed UTC+1 "BST" zone, src/app.py line 78).
-/

/-- Strings of the Python program, modelled as lists of characters. -/
abbrev Str := List Char

/-! ### Python str.split / str.join on a single-character separator
(used on timer keys, src/app.py lines 823-829, 494-498). -/

/-- Python s.split(sep) for a one-character separator: always returns a
non-empty list of (possibly empty) parts. -/
def pySplit (sep : Char) : List Char → List (List Char)
  | [] => [[]]
  | c :: rest =>
    let r := pySplit sep rest
    if c = sep then [] :: r
    else
      match r with
      | [] => [[c]]
      | p :: ps => (c :: p) :: ps

/-- Python sep.join(parts) for a one-character separator. -/
def pyJoin (sep : Char) : List (List Char) → List Char
  | [] => []
  | [p] => p
  | p :: ps => p ++ sep :: pyJoin sep ps

theorem pySplit_ne_nil (sep : Char) (l : List Char) : pySplit sep l ≠ [] := by
  cases l with
  | nil => simp [pySplit]
  | cons c rest =>
    simp only [pySplit]
    split
    · simp
    · cases h : pySplit sep rest <;> simp

/-- Splitting distributes over an explicit separator occurrence. -/
theorem pySplit_append (sep : Char) (a b : List Char) :
    pySplit sep (a ++ sep :: b) = pySplit sep a ++ pySplit sep b := by
  induction a with
  | nil => simp [pySplit]
  | cons c a ih =>
    by_cases hc : c = sep
    · subst hc
      simp [pySplit, ih]
    · simp only [List.cons_append, pySplit, if_neg hc, List.append_eq]
      rw [ih]
      cases h : pySplit sep a with
      | nil => exact absurd h (pySplit_ne_nil sep a)
      | cons p ps => simp

/-- A part containing no separator splits to itself. -/
theorem pySplit_no_sep (sep : Char) (l : List Char) (h : sep ∉ l) :
    pySplit sep l = [l] := by
  induction l with
  | nil => simp [pySplit]
  | cons c rest ih =>
    simp only [List.mem_cons, not_or] at h
    have hc : c ≠ sep := fun hcs => h.1 hcs.symm
    simp [pySplit, if_neg hc, ih h.2]

/-- Joining the split parts reconstructs the original string. -/
theorem pyJoin_pySplit (sep : Char) (l : List Char) :
    pyJoin sep (pySplit sep l) = l := by
  induction l with
  | nil => simp [pySplit, pyJoin]
  | cons c rest ih =>
    by_cases hc : c = sep
    · subst hc
      simp only [pySplit, if_pos rfl]
      cases h : pySplit c rest with
      | nil => exact absurd h (pySplit_ne_nil c rest)
      | cons p ps =>
        rw [h] at ih
        simp [pyJoin, ih]
    · simp only [pySplit, if_neg hc]
      cases h : pySplit sep rest with
      | nil => exact absurd h (pySplit_ne_nil sep rest)
      | cons p ps =>
        rw [h] at ih
        cases ps with
        | nil =>
          simp only [pyJoin] at ih
          simp [pyJoin, ih]
        | cons q qs =>
          simp only [pyJoin] at ih ⊢
          rw [List.cons_append, ih]

/-- Parse a timer key as the code does (src/app.py lines 823-829):
split on the underscore, require at least three parts, rejoin all but the
last two as the card name, and take the last two parts as list (stage)
name and user name. -/
def parseTimerKey (key : Str) : Option (Str × Str × Str) :=
  match (pySplit '_' key).reverse with
  | u :: s :: c :: cs => some (pyJoin '_' ((c :: cs).reverse), s, u)
  | _ => none

theorem pySplit_sandwich (sep : Char) (t s u : List Char)
    (hs : sep ∉ s) (hu : sep ∉ u) :
    pySplit sep (t ++ sep :: (s ++ sep :: u)) = pySplit sep t ++ [s, u] := by
  have h1 : pySplit sep (s ++ sep :: u) = [s, u] := by
    rw [pySplit_append, pySplit_no_sep sep s hs, pySplit_no_sep sep u hu]
    rfl
  calc pySplit sep (t ++ sep :: (s ++ sep :: u))
      = pySplit sep t ++ pySplit sep (s ++ sep :: u) := pySplit_append sep t _
    _ = pySplit sep t ++ [s, u] := by rw [h1]

/-- C9: for every task name t (which may contain the underscore separator)
and every stage name s and user name u free of underscores, splitting the
encoded key "t_s_u" from the right on the last two separators - as
stop_active_timer and emergency_stop_all_timers do - recovers exactly the
triple (t, s, u). -/
theorem timer_key_roundtrip (t s u : Str) (hs : '_' ∉ s) (hu : '_' ∉ u) :
    parseTimerKey (t ++ '_' :: (s ++ '_' :: u)) = some (t, s, u) := by
  unfold parseTimerKey
  rw [pySplit_sandwich '_' t s u hs hu]
  cases h : (pySplit '_' t).reverse with
  | nil => exact absurd (List.reverse_eq_nil_iff.mp h) (pySplit_ne_nil '_' t)
  | cons c cs =>
    have hrev : (pySplit '_' t ++ [s, u]).reverse = u :: s :: c :: cs := by
      simp [h]
    rw [hrev]
    have hback : (c :: cs).reverse = pySplit '_' t := by
      rw [← h, List.reverse_reverse]
    simp only [hback, pyJoin_pySplit]

/-- C9 witness: a concrete key whose task name itself contains the
separator round-trips through the parser. -/
theorem timer_key_roundtrip_witness :
    parseTimerKey
        ("My_Book".toList ++ '_' :: ("1st Edit".toList ++ '_' :: "Alice".toList))
      = some ("My_Book".toList, "1st Edit".toList, "Alice".toList) :=
  timer_key_roundtrip "My_Book".toList "1st Edit".toList "Alice".toList
    (by decide) (by decide)

/-! ### Datetimes and the Duration Calculator
(src/app.py lines 77-78 and 1519-1536). -/

/-- Fixed configured offset of the app's BST zone, in seconds east of UTC
(src/app.py line 78: timezone(timedelta(hours=1))). -/
def bstOffsetSecs : Int := 3600

/-- A Python datetime value: wall-clock microseconds since the epoch in
its own frame, together with its utc-offset in seconds (none = naive). -/
structure PyDatetime where
  us : Int
  tzOffsetSecs : Option Int
deriving DecidableEq, Repr

/-- Instant denoted by a datetime, as microseconds since the epoch in
UTC; a naive datetime is interpreted at the fixed BST offset, exactly as
calculate_timer_elapsed_time does (src/app.py lines 1528-1533). -/
def toUtcUs (d : PyDatetime) : Int :=
  d.us - (d.tzOffsetSecs.getD bstOffsetSecs) * 1000000

/-- Result of datetime.astimezone(BST) applied to the UTC instant
nowUtcUs: same instant, BST wall clock. -/
def bstOfUtcUs (nowUtcUs : Int) : PyDatetime :=
  ⟨nowUtcUs + bstOffsetSecs * 1000000, some bstOffsetSecs⟩

/-- Python date() of a datetime: its wall-clock day number (days since
the epoch, floored). -/
def pyDate (d : PyDatetime) : Int :=
  Int.fdiv d.us 86400000000

/-- Shallow embedding of calculate_timer_elapsed_time (src/app.py lines
1519-1536).  The current UTC time is passed explicitly; Python's
int(timedelta.total_seconds()) truncates toward zero, which is Int.tdiv. -/
def calculate_timer_elapsed_time (start : Option PyDatetime) (nowUtcUs : Int) : Int :=
  match start with
  | none => 0
  | some s => max 0 (Int.tdiv (nowUtcUs - toUtcUs s) 1000000)

theorem lower_clamp_tdiv_eq_fdiv (x : Int) :
    max 0 (Int.tdiv x 1000000) = Int.fdiv (max 0 x) 1000000 := by
  rcases le_or_lt 0 x with hx | hx
  · rw [max_eq_right hx, Int.tdiv_eq_ediv hx (by norm_num),
      Int.fdiv_eq_ediv x (by norm_num)]
    exact max_eq_right (Int.ediv_nonneg hx (by norm_num))
  · have ht : Int.tdiv x 1000000 ≤ 0 := by
      have h1 : 0 ≤ Int.tdiv (-x) 1000000 :=
        Int.tdiv_nonneg (by omega) (by norm_num)
      have h2 : Int.tdiv x 1000000 = -Int.tdiv (-x) 1000000 := by
        rw [← Int.neg_tdiv, neg_neg]
      omega
    rw [max_eq_left hx.le, max_eq_left ht]
    decide

/-- C2: the Duration Calculator returns max(0, now_utc - start-in-utc)
rounded down to whole seconds, a timezone-naive start being interpreted
at the fixed BST offset (built into toUtcUs); a future start now + d
with d >= 0 yields 0; the result is never negative.  The function is a
pure function of its arguments (it takes no state and returns only the
elapsed value), which embeds its freedom from side effects. -/
theorem duration_calculator_spec (s : PyDatetime) (nowUtcUs d : Int)
    (hd : 0 ≤ d) :
    calculate_timer_elapsed_time (some s) nowUtcUs
        = Int.fdiv (max 0 (nowUtcUs - toUtcUs s)) 1000000
      ∧ calculate_timer_elapsed_time (some ⟨nowUtcUs + d, some 0⟩) nowUtcUs = 0
      ∧ 0 ≤ calculate_timer_elapsed_time (some s) nowUtcUs := by
  refine ⟨?_, ?_, ?_⟩
  · simp only [calculate_timer_elapsed_time]
    exact lower_clamp_tdiv_eq_fdiv _
  · simp only [calculate_timer_elapsed_time, lower_clamp_tdiv_eq_fdiv]
    have h : nowUtcUs - toUtcUs ⟨nowUtcUs + d, some 0⟩ = -d := by
      simp [toUtcUs]
    rw [h, max_eq_left (by omega)]
    decide
  · simp only [calculate_timer_elapsed_time]
    exact le_max_left 0 _

/-- C2 witness: concrete instantiation (a start 5.5 seconds in the past
yields 5; a start 3 microseconds in the future yields 0). -/
theorem duration_calculator_spec_witness :
    calculate_timer_elapsed_time (some ⟨0, some 0⟩) 5500000
        = Int.fdiv (max 0 (5500000 - toUtcUs ⟨0, some 0⟩)) 1000000
      ∧ calculate_timer_elapsed_time (some ⟨5500000 + 3, some 0⟩) 5500000 = 0
      ∧ 0 ≤ calculate_timer_elapsed_time (some ⟨0, some 0⟩) 5500000 :=
  duration_calculator_spec ⟨0, some 0⟩ 5500000 3 (by decide)

/-! ### Data model: ledger rows, active-timer rows, application state. -/

/-- A completed time entry: one row of trello_time_tracking as the timer
subsystem writes it. -/
structure Entry where
  cardName : Str
  userName : Str
  listName : Str
  timeSpentSeconds : Int
  dateStarted : Int
  sessionStart : PyDatetime
  boardName : Str
deriving DecidableEq, Repr

/-- One row of the active_timers table (the Timer State Record). -/
structure TimerRecord where
  timerKey : Str
  cardName : Str
  userName : Option Str
  listName : Str
  boardName : Str
  startTime : PyDatetime
  accumulatedSeconds : Int
  isPaused : Bool
deriving DecidableEq, Repr

/-- An entry of the emergency in-memory backup buffer
(st.session_state.emergency_saved_times, src/app.py lines 543-553). -/
structure EmergencySave where
  cardName : Str
  userName : Str
  listName : Str
  elapsedSeconds : Int
  startTime : PyDatetime
deriving DecidableEq, Repr

/-- Whole mutable state the timer subsystem touches: the Streamlit
session-state dictionaries (as insertion-ordered association lists), the
emergency buffer, the active_timers table and the completed-entries
ledger. -/
structure AppState where
  timers : List (Str × Bool)
  timerStartTimes : List (Str × PyDatetime)
  timerAccumulatedTime : List (Str × Int)
  timerPaused : List (Str × Bool)
  timerSessionCounts : List (Str × Nat)
  emergencySavedTimes : List EmergencySave
  activeTimers : List TimerRecord
  ledger : List Entry
deriving DecidableEq, Repr

/-- Python dict lookup (d.get(k) / k in d). -/
def dget {α : Type} : List (Str × α) → Str → Option α
  | [], _ => none
  | (k0, v) :: rest, k => if k0 = k then some v else dget rest k

/-- Python dict assignment d[k] = v: updates in place, else appends. -/
def dset {α : Type} (k : Str) (v : α) : List (Str × α) → List (Str × α)
  | [] => [(k, v)]
  | (k0, v0) :: rest =>
    if k0 = k then (k0, v) :: rest else (k0, v0) :: dset k v rest

/-- Python del d[k] guarded by "if k in d". -/
def ddel {α : Type} (k : Str) : List (Str × α) → List (Str × α)
  | [] => []
  | (k0, v0) :: rest => if k0 = k then ddel k rest else (k0, v0) :: ddel k rest

theorem dget_dset_self {α : Type} (k : Str) (v : α) (m : List (Str × α)) :
    dget (dset k v m) k = some v := by
  induction m with
  | nil => simp [dset, dget]
  | cons kv rest ih =>
    by_cases h : kv.1 = k
    · simp [dset, dget, h]
    · simp [dset, dget, h, ih]

theorem dget_dset_other {α : Type} (k k' : Str) (v : α) (m : List (Str × α))
    (h : k ≠ k') : dget (dset k v m) k' = dget m k' := by
  induction m with
  | nil => simp [dset, dget, h]
  | cons kv rest ih =>
    by_cases hk : kv.1 = k
    · simp [dset, dget, hk, h]
    · simp only [dset, if_neg hk, dget]
      by_cases hk' : kv.1 = k'
      · simp [hk']
      · simp [hk', ih]

/-! ### Timer Store and Ledger operations. -/

/-- Python's replace(tzinfo=BST) applied when a naive datetime must be
persisted (src/app.py lines 712-715, 759-762). -/
def withTzBST (d : PyDatetime) : PyDatetime :=
  match d.tzOffsetSecs with
  | none => { d with tzOffsetSecs := some bstOffsetSecs }
  | some _ => d

/-- save_active_timer's INSERT ... ON CONFLICT (timer_key) DO UPDATE
(src/app.py lines 717-741): on conflict only start_time,
accumulated_seconds and is_paused are overwritten; the name columns of
the existing row are kept. -/
def storeSave (r : TimerRecord) : List TimerRecord → List TimerRecord
  | [] => [r]
  | r0 :: rest =>
    if r0.timerKey = r.timerKey then
      { r0 with startTime := r.startTime,
                accumulatedSeconds := r.accumulatedSeconds,
                isPaused := r.isPaused } :: rest
    else r0 :: storeSave r rest

/-- update_active_timer_state's UPDATE (src/app.py lines 747-791):
sets accumulated_seconds and is_paused, and start_time only when one is
passed, on every row whose timer_key matches; a missing row is left as a
silent no-op. -/
def storeUpdate (k : Str) (accum : Int) (paused : Bool)
    (start : Option PyDatetime) (tbl : List TimerRecord) : List TimerRecord :=
  tbl.map fun r =>
    if r.timerKey = k then
      match start with
      | some st0 => { r with accumulatedSeconds := accum, isPaused := paused,
                             startTime := withTzBST st0 }
      | none => { r with accumulatedSeconds := accum, isPaused := paused }
    else r

/-- DELETE FROM active_timers WHERE timer_key = k. -/
def storeDelete (k : Str) (tbl : List TimerRecord) : List TimerRecord :=
  tbl.filter fun r => r.timerKey ≠ k

/-- Board-name lookup performed by stop_active_timer (src/app.py lines
831-841): the row's board name if present and non-empty, else the
'Manual Entry' default. -/
def boardNameFor (tbl : List TimerRecord) (k : Str) : Str :=
  match tbl.find? (fun r => r.timerKey = k) with
  | some r => if r.boardName ≠ [] then r.boardName else "Manual Entry".toList
  | none => "Manual Entry".toList

/-- Natural key of the stop-path ledger upsert: ON CONFLICT (card_name,
user_name, list_name, date_started, time_spent_seconds)
(src/app.py line 853). -/
def entryKey (e : Entry) : Str × Str × Str × Int × Int :=
  (e.cardName, e.userName, e.listName, e.dateStarted, e.timeSpentSeconds)

/-- stop_active_timer's INSERT ... ON CONFLICT DO UPDATE into the ledger
(src/app.py lines 844-869): on conflict the existing row keeps its key
columns and takes the new session_start_time and board_name; otherwise
the row is appended. -/
def ledgerUpsert (e : Entry) : List Entry → List Entry
  | [] => [e]
  | e0 :: rest =>
    if entryKey e0 = entryKey e then
      { e0 with sessionStart := e.sessionStart, boardName := e.boardName } :: rest
    else e0 :: ledgerUpsert e rest

/-- Upserting an entry that conflicts with nothing in the ledger appends
exactly one row. -/
theorem ledgerUpsert_no_conflict (e : Entry) (l : List Entry)
    (h : ∀ e0 ∈ l, entryKey e0 ≠ entryKey e) :
    ledgerUpsert e l = l ++ [e] := by
  induction l with
  | nil => rfl
  | cons e0 rest ih =>
    have h0 : entryKey e0 ≠ entryKey e := h e0 (List.mem_cons_self e0 rest)
    simp only [ledgerUpsert, if_neg h0, List.cons_append]
    rw [ih fun e1 he1 => h e1 (List.mem_cons_of_mem e0 he1)]

/-! ### Timer Lifecycle Controller transitions.
Each transition takes the current UTC clock reading in microseconds; the
Python code reads the clock itself, here it is passed explicitly. -/

/-- Start button handler (src/app.py lines 2911-2947): records a fresh
BST-aware start time, activates the session-state timer with accumulated
0 and not paused, and upserts the Timer State Record. -/
def startTimer (σ : AppState) (k card : Str) (user : Option Str)
    (listName board : Str) (nowUtcUs : Int) : AppState :=
  let startBst := bstOfUtcUs nowUtcUs
  { σ with
      timers := dset k true σ.timers
      timerStartTimes := dset k startBst σ.timerStartTimes
      timerPaused := dset k false σ.timerPaused
      timerAccumulatedTime := dset k 0 σ.timerAccumulatedTime
      activeTimers :=
        storeSave ⟨k, card, user, listName, board, startBst, 0, false⟩
          σ.activeTimers }

/-- Pause/Resume button handler (src/app.py lines 2727-2786, identically
847-984 in the sidebar): only reachable when the timer is active and has
a session start time.  When running it freezes accumulated time and sets
is_paused; when paused it sets a fresh BST-aware start time and clears
is_paused; either way the change is persisted via
update_active_timer_state. -/
def pauseResumeTimer (σ : AppState) (k : Str) (nowUtcUs : Int) : AppState :=
  if (dget σ.timers k).getD false = false then σ
  else
    match dget σ.timerStartTimes k with
    | none => σ
    | some startTime =>
      let accumulated := (dget σ.timerAccumulatedTime k).getD 0
      let paused := (dget σ.timerPaused k).getD false
      if paused then
        let resumeTime := bstOfUtcUs nowUtcUs
        { σ with
            timerStartTimes := dset k resumeTime σ.timerStartTimes
            timerPaused := dset k false σ.timerPaused
            activeTimers :=
              storeUpdate k accumulated false (some resumeTime) σ.activeTimers }
      else
        let newAccum :=
          accumulated + calculate_timer_elapsed_time (some startTime) nowUtcUs
        { σ with
            timerAccumulatedTime := dset k newAccum σ.timerAccumulatedTime
            timerPaused := dset k true σ.timerPaused
            activeTimers := storeUpdate k newAccum true none σ.activeTimers }

/-- stop_active_timer (src/app.py lines 810-884), with the database
operations succeeding.  A key absent from the session timers dictionary,
or failing the three-part parse, returns unchanged.  Otherwise the final
elapsed value is accumulated plus - only when not paused and a start time
exists - the Duration Calculator's value; one entry is upserted into the
ledger, the Timer State Record is deleted, the session timer is marked
inactive (the key stays in the dictionary, set to False), the per-key
start/accumulated/paused fields are deleted, and the session counter is
incremented. -/
def stop_active_timer (σ : AppState) (k : Str) (nowUtcUs : Int) : AppState :=
  match dget σ.timers k with
  | none => σ
  | some _ =>
    let startTime := dget σ.timerStartTimes k
    let accumulated := (dget σ.timerAccumulatedTime k).getD 0
    let paused := (dget σ.timerPaused k).getD false
    let elapsed := accumulated +
      (if paused = false ∧ startTime.isSome then
        calculate_timer_elapsed_time startTime nowUtcUs
      else 0)
    match parseTimerKey k with
    | none => σ
    | some (card, listName, user) =>
      let sessionStart := startTime.getD (bstOfUtcUs nowUtcUs)
      let e : Entry :=
        ⟨card, user, listName, elapsed, pyDate sessionStart, sessionStart,
          boardNameFor σ.activeTimers k⟩
      { σ with
          ledger := ledgerUpsert e σ.ledger
          activeTimers := storeDelete k σ.activeTimers
          timers := dset k false σ.timers
          timerStartTimes := ddel k σ.timerStartTimes
          timerAccumulatedTime := ddel k σ.timerAccumulatedTime
          timerPaused := ddel k σ.timerPaused
          timerSessionCounts :=
            dset k ((dget σ.timerSessionCounts k).getD 0 + 1)
              σ.timerSessionCounts }

/-! ### Emergency Recovery (src/app.py lines 476-571 and 574-610).
Database writes can fail here, so the write outcomes are driven by an
explicit success schedule. -/

/-- First succeeding attempt, if any, of the three-attempt retry loop of
the emergency ledger write (src/app.py line 507: for attempt in
range(3)). -/
def firstOkAttempt (w : Nat → Bool) : Option Nat :=
  if w 0 then some 0 else if w 1 then some 1 else if w 2 then some 2 else none

/-- Completed Time Entry built from an emergency-buffered save
(board_name 'Manual Entry', date from the start time; src/app.py lines
511-529 and 580-600). -/
def entryOfSave (sv : EmergencySave) : Entry :=
  ⟨sv.cardName, sv.userName, sv.listName, sv.elapsedSeconds,
    pyDate sv.startTime, sv.startTime, "Manual Entry".toList⟩

/-- Body of the emergency loop for a single (timer_key, is_active)
session entry (src/app.py lines 490-557): skips inactive keys, keys with
no recorded start time, keys that do not parse into three parts, and
timers with non-positive computed elapsed time; otherwise tries the
ledger write up to three times, deleting the Timer State Record on
success and buffering the entry when all attempts fail. -/
def emergencyProcessTimer (wsched : Str → Nat → Bool) (nowUtcUs : Int)
    (σ : AppState) (kv : Str × Bool) : AppState :=
  if kv.2 = false then σ
  else
    match dget σ.timerStartTimes kv.1 with
    | none => σ
    | some startTime =>
      match parseTimerKey kv.1 with
      | none => σ
      | some (card, listName, user) =>
        let elapsed := calculate_timer_elapsed_time (some startTime) nowUtcUs
        if 0 < elapsed then
          match firstOkAttempt (wsched kv.1) with
          | some _ =>
            { σ with
                ledger := σ.ledger ++
                  [⟨card, user, listName, elapsed, pyDate startTime,
                    startTime, "Manual Entry".toList⟩]
                activeTimers := storeDelete kv.1 σ.activeTimers }
          | none =>
            { σ with
                emergencySavedTimes := σ.emergencySavedTimes ++
                  [⟨card, user, listName, elapsed, startTime⟩] }
        else σ

/-- emergency_stop_all_timers (src/app.py lines 476-571): processes each
session timer in order, then attempts to clear the whole active_timers
table (silently skipped on failure). -/
def emergency_stop_all_timers (wsched : Str → Nat → Bool) (clearOk : Bool)
    (σ : AppState) (nowUtcUs : Int) : AppState :=
  let σ1 := σ.timers.foldl (emergencyProcessTimer wsched nowUtcUs) σ
  if clearOk then { σ1 with activeTimers := [] } else σ1

/-- recover_emergency_saved_times (src/app.py lines 574-610): re-attempts
one ledger write per buffered entry (ok i says whether the write of the
i-th entry succeeds), then clears the whole buffer. -/
def recover_emergency_saved_times (ok : Nat → Bool) (σ : AppState) : AppState :=
  if σ.emergencySavedTimes.isEmpty then σ
  else
    { σ with
        ledger := σ.ledger ++
          ((σ.emergencySavedTimes.enum.filter fun p => ok p.1).map
            fun p => entryOfSave p.2)
        emergencySavedTimes := [] }

/-! ### Control flow of the database write paths (for the retry claim).
A schedule ok : Nat -> Bool says whether the n-th attempt of a write
would succeed. -/

/-- Outcome of one database write path: attempts made, success, and
whether a failure was reported to the user via st.error. -/
structure WriteResult where
  attemptsMade : Nat
  succeeded : Bool
  errorReported : Bool
deriving DecidableEq, Repr

/-- save_active_timer's control flow (src/app.py lines 710-744): one
try block, no loop; the only failure handling is an st.error report. -/
def save_active_timer_result (ok : Nat → Bool) : WriteResult :=
  if ok 0 then ⟨1, true, false⟩ else ⟨1, false, true⟩

/-- update_active_timer_state's control flow (src/app.py lines 751-790):
one try block, no loop, st.error on failure. -/
def update_active_timer_state_result (ok : Nat → Bool) : WriteResult :=
  if ok 0 then ⟨1, true, false⟩ else ⟨1, false, true⟩

/-- remove_active_timer's control flow (src/app.py lines 795-807): one
try block, no loop, st.error on failure. -/
def remove_active_timer_result (ok : Nat → Bool) : WriteResult :=
  if ok 0 then ⟨1, true, false⟩ else ⟨1, false, true⟩

/-- stop_active_timer's ledger write control flow (src/app.py lines
843-873): one try block, no loop, st.error on failure. -/
def stop_ledger_write_result (ok : Nat → Bool) : WriteResult :=
  if ok 0 then ⟨1, true, false⟩ else ⟨1, false, true⟩

/-- Control flow of the emergency ledger write (src/app.py lines
507-554): up to three attempts; exhausting them buffers the entry
without an st.error report. -/
def emergency_write_result (ok : Nat → Bool) : WriteResult :=
  match firstOkAttempt ok with
  | some i => ⟨i + 1, true, false⟩
  | none => ⟨3, false, false⟩

/-- Modelled from the spec: the retry policy of spec sections 4.2 and 7 -
every store/ledger write is retried up to 3 attempts with a short fixed
backoff, and the failure is surfaced afterwards. -/
def specRetriedWrite (ok : Nat → Bool) : WriteResult :=
  match firstOkAttempt ok with
  | some i => ⟨i + 1, true, false⟩
  | none => ⟨3, false, true⟩

def usOfSec (t : Int) : Int := t * 1000000

def emptyState : AppState := ⟨[], [], [], [], [], [], [], []⟩

/-- Completed Time Entry the claim says a Stop must write: elapsed =
accumulated + (0 if paused else Duration Calculator on the stored start
time), carrying the stored session start. -/
def stopLedgerEntry (σ : AppState) (k : Str) (nowUtcUs : Int)
    (card listName user : Str) : Entry :=
  let st := dget σ.timerStartTimes k
  let sessionStart := st.getD (bstOfUtcUs nowUtcUs)
  ⟨card, user, listName,
    (dget σ.timerAccumulatedTime k).getD 0 +
      (if (dget σ.timerPaused k).getD false = true then 0
       else calculate_timer_elapsed_time st nowUtcUs),
    pyDate sessionStart, sessionStart,
    boardNameFor σ.activeTimers k⟩

/-- C1: stopping an existing timer (running or paused) computes final
elapsed = accumulated + (0 if paused else Duration Calculator on the
current start time), writes exactly one Completed Time Entry carrying
that elapsed value and the stored session start time (assuming, as the
upsert's natural key makes possible, no conflicting row), and deletes
the Timer State Record from the store. -/
theorem stop_existing_timer_spec (σ : AppState) (k : Str) (nowUtcUs : Int)
    (b : Bool) (st : PyDatetime) (card listName user : Str)
    (hk : dget σ.timers k = some b)
    (hst : dget σ.timerStartTimes k = some st)
    (hparse : parseTimerKey k = some (card, listName, user))
    (hnc : ∀ e0 ∈ σ.ledger,
      entryKey e0 ≠ entryKey (stopLedgerEntry σ k nowUtcUs card listName user)) :
    (stop_active_timer σ k nowUtcUs).ledger
        = σ.ledger ++ [stopLedgerEntry σ k nowUtcUs card listName user]
      ∧ (stopLedgerEntry σ k nowUtcUs card listName user).timeSpentSeconds
          = (dget σ.timerAccumulatedTime k).getD 0 +
            (if (dget σ.timerPaused k).getD false = true then 0
             else calculate_timer_elapsed_time (some st) nowUtcUs)
      ∧ (stopLedgerEntry σ k nowUtcUs card listName user).sessionStart = st
      ∧ (stop_active_timer σ k nowUtcUs).activeTimers
          = storeDelete k σ.activeTimers := by
  have hentry : stopLedgerEntry σ k nowUtcUs card listName user =
      ⟨card, user, listName,
        (dget σ.timerAccumulatedTime k).getD 0 +
          (if ((dget σ.timerPaused k).getD false) = false ∧
              (dget σ.timerStartTimes k).isSome then
            calculate_timer_elapsed_time (dget σ.timerStartTimes k) nowUtcUs
          else 0),
        pyDate ((dget σ.timerStartTimes k).getD (bstOfUtcUs nowUtcUs)),
        (dget σ.timerStartTimes k).getD (bstOfUtcUs nowUtcUs),
        boardNameFor σ.activeTimers k⟩ := by
    cases hp : (dget σ.timerPaused k).getD false <;>
      simp [stopLedgerEntry, hst, hp]
  refine ⟨?_, ?_, ?_, ?_⟩
  · simp only [stop_active_timer, hk, hparse]
    rw [← hentry]
    exact ledgerUpsert_no_conflict _ _ hnc
  · cases hp : (dget σ.timerPaused k).getD false <;>
      simp [stopLedgerEntry, hst, hp]
  · simp [stopLedgerEntry, hst]
  · simp only [stop_active_timer, hk, hparse]

/-- C1 witness: a timer started at 10:00:00 UTC and stopped at
10:01:30 UTC produces exactly one ledger entry and loses its store
record. -/
theorem stop_existing_timer_spec_witness :
    (stop_active_timer
        (startTimer emptyState "Book_Edit_Ann".toList "Book".toList
          (some "Ann".toList) "Edit".toList "B1".toList (usOfSec 36000))
        "Book_Edit_Ann".toList (usOfSec 36090)).ledger
        = (startTimer emptyState "Book_Edit_Ann".toList "Book".toList
            (some "Ann".toList) "Edit".toList "B1".toList (usOfSec 36000)).ledger
          ++ [stopLedgerEntry
                (startTimer emptyState "Book_Edit_Ann".toList "Book".toList
                  (some "Ann".toList) "Edit".toList "B1".toList (usOfSec 36000))
                "Book_Edit_Ann".toList (usOfSec 36090)
                "Book".toList "Edit".toList "Ann".toList]
      ∧ (stopLedgerEntry
            (startTimer emptyState "Book_Edit_Ann".toList "Book".toList
              (some "Ann".toList) "Edit".toList "B1".toList (usOfSec 36000))
            "Book_Edit_Ann".toList (usOfSec 36090)
            "Book".toList "Edit".toList "Ann".toList).timeSpentSeconds
          = (dget (startTimer emptyState "Book_Edit_Ann".toList "Book".toList
                (some "Ann".toList) "Edit".toList "B1".toList
                (usOfSec 36000)).timerAccumulatedTime "Book_Edit_Ann".toList).getD 0 +
            (if (dget (startTimer emptyState "Book_Edit_Ann".toList "Book".toList
                  (some "Ann".toList) "Edit".toList "B1".toList
                  (usOfSec 36000)).timerPaused "Book_Edit_Ann".toList).getD false = true
             then 0
             else calculate_timer_elapsed_time (some (bstOfUtcUs (usOfSec 36000)))
                    (usOfSec 36090))
      ∧ (stopLedgerEntry
            (startTimer emptyState "Book_Edit_Ann".toList "Book".toList
              (some "Ann".toList) "Edit".toList "B1".toList (usOfSec 36000))
            "Book_Edit_Ann".toList (usOfSec 36090)
            "Book".toList "Edit".toList "Ann".toList).sessionStart
          = bstOfUtcUs (usOfSec 36000)
      ∧ (stop_active_timer
            (startTimer emptyState "Book_Edit_Ann".toList "Book".toList
              (some "Ann".toList) "Edit".toList "B1".toList (usOfSec 36000))
            "Book_Edit_Ann".toList (usOfSec 36090)).activeTimers
          = storeDelete "Book_Edit_Ann".toList
              (startTimer emptyState "Book_Edit_Ann".toList "Book".toList
                (some "Ann".toList) "Edit".toList "B1".toList
                (usOfSec 36000)).activeTimers :=
  stop_existing_timer_spec
    (startTimer emptyState "Book_Edit_Ann".toList "Book".toList
      (some "Ann".toList) "Edit".toList "B1".toList (usOfSec 36000))
    "Book_Edit_Ann".toList (usOfSec 36090) true (bstOfUtcUs (usOfSec 36000))
    "Book".toList "Edit".toList "Ann".toList
    (by decide) (by decide) (by decide) (by decide)

/-- C5: pausing a running timer adds the Duration Calculator's value
for the current running interval to accumulated_seconds (exactly, hence
within the claim's one-second tolerance), sets is_paused, persists the
updated accumulated/is_paused pair to the Timer Store, and leaves the
stored start_time field of the record untouched. -/
theorem pause_running_timer_spec (σ : AppState) (k : Str) (nowUtcUs : Int)
    (st : PyDatetime)
    (hk : dget σ.timers k = some true)
    (hst : dget σ.timerStartTimes k = some st)
    (hpau : (dget σ.timerPaused k).getD false = false) :
    dget (pauseResumeTimer σ k nowUtcUs).timerAccumulatedTime k
        = some ((dget σ.timerAccumulatedTime k).getD 0 +
            calculate_timer_elapsed_time (some st) nowUtcUs)
      ∧ dget (pauseResumeTimer σ k nowUtcUs).timerPaused k = some true
      ∧ (pauseResumeTimer σ k nowUtcUs).activeTimers
          = (σ.activeTimers.map fun r =>
              if r.timerKey = k then
                { r with
                    accumulatedSeconds :=
                      (dget σ.timerAccumulatedTime k).getD 0 +
                        calculate_timer_elapsed_time (some st) nowUtcUs,
                    isPaused := true }
              else r)
      ∧ (pauseResumeTimer σ k nowUtcUs).timerStartTimes = σ.timerStartTimes := by
  simp [pauseResumeTimer, hk, hst, hpau, storeUpdate, dget_dset_self]


/-- C5 witness: a timer started at 10:00:00 UTC and paused at 10:01:00
UTC accumulates exactly the 60-second running interval. -/
theorem pause_running_timer_spec_witness :
    dget (pauseResumeTimer (startTimer emptyState "Book_Edit_Ann".toList "Book".toList
          (some "Ann".toList) "Edit".toList "B1".toList (usOfSec 36000))
          "Book_Edit_Ann".toList (usOfSec 36060)).timerAccumulatedTime
        "Book_Edit_Ann".toList
        = some ((dget (startTimer emptyState "Book_Edit_Ann".toList "Book".toList
          (some "Ann".toList) "Edit".toList "B1".toList (usOfSec 36000)).timerAccumulatedTime "Book_Edit_Ann".toList).getD 0 +
            calculate_timer_elapsed_time (some (bstOfUtcUs (usOfSec 36000)))
              (usOfSec 36060))
      ∧ dget (pauseResumeTimer (startTimer emptyState "Book_Edit_Ann".toList "Book".toList
          (some "Ann".toList) "Edit".toList "B1".toList (usOfSec 36000))
            "Book_Edit_Ann".toList (usOfSec 36060)).timerPaused
          "Book_Edit_Ann".toList = some true
      ∧ (pauseResumeTimer (startTimer emptyState "Book_Edit_Ann".toList "Book".toList
          (some "Ann".toList) "Edit".toList "B1".toList (usOfSec 36000))
            "Book_Edit_Ann".toList (usOfSec 36060)).activeTimers
          = ((startTimer emptyState "Book_Edit_Ann".toList "Book".toList
          (some "Ann".toList) "Edit".toList "B1".toList (usOfSec 36000)).activeTimers.map fun r =>
              if r.timerKey = "Book_Edit_Ann".toList then
                { r with
                    accumulatedSeconds :=
                      (dget (startTimer emptyState "Book_Edit_Ann".toList "Book".toList
          (some "Ann".toList) "Edit".toList "B1".toList (usOfSec 36000)).timerAccumulatedTime
                        "Book_Edit_Ann".toList).getD 0 +
                        calculate_timer_elapsed_time
                          (some (bstOfUtcUs (usOfSec 36000))) (usOfSec 36060),
                    isPaused := true }
              else r)
      ∧ (pauseResumeTimer (startTimer emptyState "Book_Edit_Ann".toList "Book".toList
          (some "Ann".toList) "Edit".toList "B1".toList (usOfSec 36000))
            "Book_Edit_Ann".toList (usOfSec 36060)).timerStartTimes
          = (startTimer emptyState "Book_Edit_Ann".toList "Book".toList
          (some "Ann".toList) "Edit".toList "B1".toList (usOfSec 36000)).timerStartTimes :=
  pause_running_timer_spec (startTimer emptyState "Book_Edit_Ann".toList "Book".toList
          (some "Ann".toList) "Edit".toList "B1".toList (usOfSec 36000))
    "Book_Edit_Ann".toList (usOfSec 36060) (bstOfUtcUs (usOfSec 36000))
    (by decide) (by decide) (by decide)

/-- C4: evaluating the code at the failing input of the idempotence
claim.  After a successful Stop the key stays in the session timers
dictionary (merely set to False, src/app.py line 875), so a second Stop
passes the guard on line 812, writes an additional zero-duration ledger
entry dated at the second stop instant, and increments the session
counter - it is not a no-op, contradicting the spec's idempotence
requirement. -/
theorem stop_twice_writes_zero_entry :
    (stop_active_timer
        (stop_active_timer
          (startTimer emptyState "Book_Edit_Ann".toList "Book".toList
            (some "Ann".toList) "Edit".toList "B1".toList (usOfSec 36000))
          "Book_Edit_Ann".toList (usOfSec 36090))
        "Book_Edit_Ann".toList (usOfSec 36100)).ledger
        = (stop_active_timer
            (startTimer emptyState "Book_Edit_Ann".toList "Book".toList
              (some "Ann".toList) "Edit".toList "B1".toList (usOfSec 36000))
            "Book_Edit_Ann".toList (usOfSec 36090)).ledger
          ++ [⟨"Book".toList, "Ann".toList, "Edit".toList, 0,
                pyDate (bstOfUtcUs (usOfSec 36100)), bstOfUtcUs (usOfSec 36100),
                "Manual Entry".toList⟩]
      ∧ dget (stop_active_timer
            (stop_active_timer
              (startTimer emptyState "Book_Edit_Ann".toList "Book".toList
                (some "Ann".toList) "Edit".toList "B1".toList (usOfSec 36000))
              "Book_Edit_Ann".toList (usOfSec 36090))
            "Book_Edit_Ann".toList (usOfSec 36100)).timerSessionCounts
          "Book_Edit_Ann".toList = some 2 := by
  decide

/-- The Duration Calculator on second-granular BST-aware times: exactly
the whole-second difference (when non-negative). -/
theorem calc_bst_seconds (s t : Int) (h : s ≤ t) :
    calculate_timer_elapsed_time (some (bstOfUtcUs (usOfSec s))) (usOfSec t)
      = t - s := by
  simp only [calculate_timer_elapsed_time, toUtcUs, bstOfUtcUs, usOfSec,
    Option.getD_some]
  have hx : t * 1000000 - (s * 1000000 + bstOffsetSecs * 1000000 -
      bstOffsetSecs * 1000000) = (t - s) * 1000000 := by ring
  rw [hx, Int.mul_tdiv_cancel _ (by norm_num)]
  omega

/-- Session-state view of a timer running since second s with
accumulated seconds a. -/
def RunningAt (σ : AppState) (k : Str) (s a : Int) : Prop :=
  dget σ.timers k = some true
    ∧ dget σ.timerStartTimes k = some (bstOfUtcUs (usOfSec s))
    ∧ dget σ.timerAccumulatedTime k = some a
    ∧ dget σ.timerPaused k = some false

theorem startTimer_running (σ : AppState) (k card : Str) (usr : Option Str)
    (listName board : Str) (t0 : Int) :
    RunningAt (startTimer σ k card usr listName board (usOfSec t0)) k t0 0
      ∧ (startTimer σ k card usr listName board (usOfSec t0)).ledger = σ.ledger := by
  refine ⟨⟨?_, ?_, ?_, ?_⟩, rfl⟩ <;> simp [startTimer, dget_dset_self]

theorem pauseResume_cycle_step (σ : AppState) (k : Str) (s a p r : Int)
    (hrun : RunningAt σ k s a) (hsp : s ≤ p) :
    RunningAt
        (pauseResumeTimer (pauseResumeTimer σ k (usOfSec p)) k (usOfSec r))
        k r (a + (p - s))
      ∧ (pauseResumeTimer (pauseResumeTimer σ k (usOfSec p)) k
          (usOfSec r)).ledger = σ.ledger := by
  obtain ⟨hk, hst, hacc, hpau⟩ := hrun
  have h1 : pauseResumeTimer σ k (usOfSec p) =
      { σ with
          timerAccumulatedTime := dset k (a + (p - s)) σ.timerAccumulatedTime
          timerPaused := dset k true σ.timerPaused
          activeTimers := storeUpdate k (a + (p - s)) true none σ.activeTimers } := by
    simp [pauseResumeTimer, hk, hst, hacc, hpau, calc_bst_seconds s p hsp]
  rw [h1]
  have h2 : pauseResumeTimer
      { σ with
          timerAccumulatedTime := dset k (a + (p - s)) σ.timerAccumulatedTime
          timerPaused := dset k true σ.timerPaused
          activeTimers := storeUpdate k (a + (p - s)) true none σ.activeTimers }
      k (usOfSec r) =
      { σ with
          timerAccumulatedTime := dset k (a + (p - s)) σ.timerAccumulatedTime
          timerPaused := dset k false (dset k true σ.timerPaused)
          timerStartTimes := dset k (bstOfUtcUs (usOfSec r)) σ.timerStartTimes
          activeTimers :=
            storeUpdate k (a + (p - s)) false (some (bstOfUtcUs (usOfSec r)))
              (storeUpdate k (a + (p - s)) true none σ.activeTimers) } := by
    simp [pauseResumeTimer, hk, hst, dget_dset_self]
  rw [h2]
  refine ⟨⟨?_, ?_, ?_, ?_⟩, rfl⟩ <;>
    simp [dget_dset_self, hk, hacc]

/-- Pause at p then resume at r, for each listed cycle, via the
pause/resume button handler. -/
def runCycles (k : Str) : AppState → List (Int × Int) → AppState
  | σ, [] => σ
  | σ, (p, r) :: rest =>
      runCycles k (pauseResumeTimer (pauseResumeTimer σ k (usOfSec p)) k (usOfSec r)) rest

/-- Times s, p1 ≤ r1, ..., pn ≤ rn, e are in chronological order. -/
def chronoPairs : Int → List (Int × Int) → Int → Prop
  | s, [], e => s ≤ e
  | s, (p, r) :: rest, e => s ≤ p ∧ p ≤ r ∧ chronoPairs r rest e

/-- Start of the last running interval. -/
def lastResume : Int → List (Int × Int) → Int
  | s, [] => s
  | _, (_, r) :: rest => lastResume r rest

/-- Seconds accumulated by the closed (paused) running intervals. -/
def pausedSum : Int → List (Int × Int) → Int
  | _, [] => 0
  | s, (p, r) :: rest => (p - s) + pausedSum r rest

/-- Sum of the durations of the individual running intervals of a
start/pause/resume/stop history. -/
def runIntervalsSum : Int → List (Int × Int) → Int → Int
  | s, [], e => e - s
  | s, (p, r) :: rest, e => (p - s) + runIntervalsSum r rest e

theorem pausedSum_lastResume (pairs : List (Int × Int)) :
    ∀ s e : Int, pausedSum s pairs + (e - lastResume s pairs)
      = runIntervalsSum s pairs e := by
  induction pairs with
  | nil => intro s e; simp [pausedSum, lastResume, runIntervalsSum]
  | cons pr rest ih =>
    intro s e
    obtain ⟨p, r⟩ := pr
    simp only [pausedSum, lastResume, runIntervalsSum]
    have := ih r e
    omega

theorem chrono_lastResume_le (pairs : List (Int × Int)) :
    ∀ s e : Int, chronoPairs s pairs e → lastResume s pairs ≤ e := by
  induction pairs with
  | nil => intro s e h; exact h
  | cons pr rest ih =>
    intro s e h
    obtain ⟨p, r⟩ := pr
    exact ih r e h.2.2

theorem runCycles_running (k : Str) (pairs : List (Int × Int)) :
    ∀ (σ : AppState) (s a e : Int), RunningAt σ k s a →
      chronoPairs s pairs e →
      RunningAt (runCycles k σ pairs) k (lastResume s pairs)
          (a + pausedSum s pairs)
        ∧ (runCycles k σ pairs).ledger = σ.ledger := by
  induction pairs with
  | nil =>
    intro σ s a e hrun _
    refine ⟨?_, rfl⟩
    simpa [runCycles, lastResume, pausedSum] using hrun
  | cons pr rest ih =>
    intro σ s a e hrun hch
    obtain ⟨p, r⟩ := pr
    obtain ⟨hsp, hpr, hch'⟩ := hch
    have hstep := pauseResume_cycle_step σ k s a p r hrun hsp
    have hrec := ih _ r (a + (p - s)) e hstep.1 hch'
    refine ⟨?_, ?_⟩
    · simpa [runCycles, lastResume, pausedSum, add_assoc] using hrec.1
    · simp only [runCycles]
      rw [hrec.2, hstep.2]

/-- C3: a Start, any number of chronologically ordered Pause/Resume
cycles, then Stop appends exactly one Completed Time Entry to the
ledger, whose elapsed value is the sum of the durations of the
individual running intervals, whatever the number of cycles (the
no-conflict hypothesis rules out a pre-existing ledger row on the
upsert's natural key). -/
theorem pause_resume_cycles_spec
    (σ0 : AppState) (k card listName user : Str) (usr : Option Str)
    (board : Str) (t0 tstop : Int) (pairs : List (Int × Int))
    (hch : chronoPairs t0 pairs tstop)
    (hparse : parseTimerKey k = some (card, listName, user))
    (hnc : ∀ e0 ∈ σ0.ledger,
      e0.timeSpentSeconds ≠ runIntervalsSum t0 pairs tstop) :
    ∃ e : Entry,
      (stop_active_timer
          (runCycles k (startTimer σ0 k card usr listName board (usOfSec t0))
            pairs)
          k (usOfSec tstop)).ledger
        = σ0.ledger ++ [e]
      ∧ e.timeSpentSeconds = runIntervalsSum t0 pairs tstop
      ∧ e.cardName = card ∧ e.userName = user ∧ e.listName = listName := by
  have hs := startTimer_running σ0 k card usr listName board t0
  have hrc := runCycles_running k pairs
    (startTimer σ0 k card usr listName board (usOfSec t0)) t0 0 tstop hs.1 hch
  obtain ⟨⟨hk2, hst2, hacc2, hpau2⟩, hled2⟩ := hrc
  have hledg : (runCycles k (startTimer σ0 k card usr listName board
      (usOfSec t0)) pairs).ledger = σ0.ledger := by rw [hled2, hs.2]
  have hsec : (stopLedgerEntry
      (runCycles k (startTimer σ0 k card usr listName board (usOfSec t0)) pairs)
      k (usOfSec tstop) card listName user).timeSpentSeconds
      = runIntervalsSum t0 pairs tstop := by
    simp only [stopLedgerEntry, hst2, hacc2, hpau2, Option.getD_some]
    rw [calc_bst_seconds _ _ (chrono_lastResume_le pairs t0 tstop hch)]
    have hps := pausedSum_lastResume pairs t0 tstop
    simp only [if_neg (by decide : ¬(false = true))]
    omega
  have hnc' : ∀ e0 ∈ (runCycles k (startTimer σ0 k card usr listName board
      (usOfSec t0)) pairs).ledger,
      entryKey e0 ≠ entryKey (stopLedgerEntry
        (runCycles k (startTimer σ0 k card usr listName board (usOfSec t0))
          pairs) k (usOfSec tstop) card listName user) := by
    intro e0 he0 hkey
    have hsk : e0.timeSpentSeconds = (stopLedgerEntry
        (runCycles k (startTimer σ0 k card usr listName board (usOfSec t0))
          pairs) k (usOfSec tstop) card listName user).timeSpentSeconds :=
      congrArg (fun q => q.2.2.2.2) hkey
    rw [hledg] at he0
    exact hnc e0 he0 (hsk.trans hsec)
  have hstop := stop_existing_timer_spec
    (runCycles k (startTimer σ0 k card usr listName board (usOfSec t0)) pairs)
    k (usOfSec tstop) true (bstOfUtcUs (usOfSec (lastResume t0 pairs)))
    card listName user hk2 hst2 hparse hnc'
  refine ⟨stopLedgerEntry
      (runCycles k (startTimer σ0 k card usr listName board (usOfSec t0))
        pairs) k (usOfSec tstop) card listName user,
    ?_, hsec, rfl, rfl, rfl⟩
  rw [hstop.1, hledg]

/-- C3 witness: Start at 10:00:00, Pause at 10:00:30, Resume at
10:01:00, Stop at 10:02:00 gives exactly one ledger entry of
30 + 60 = 90 seconds. -/
theorem pause_resume_cycles_spec_witness :
    (∃ e : Entry,
      (stop_active_timer
          (runCycles "Book_Edit_Ann".toList
            (startTimer emptyState "Book_Edit_Ann".toList "Book".toList
              (some "Ann".toList) "Edit".toList "B1".toList (usOfSec 36000))
            [(36030, 36060)])
          "Book_Edit_Ann".toList (usOfSec 36120)).ledger
        = emptyState.ledger ++ [e]
      ∧ e.timeSpentSeconds = runIntervalsSum 36000 [(36030, 36060)] 36120
      ∧ e.cardName = "Book".toList ∧ e.userName = "Ann".toList
      ∧ e.listName = "Edit".toList)
    ∧ runIntervalsSum 36000 [(36030, 36060)] 36120 = 90 :=
  ⟨pause_resume_cycles_spec emptyState "Book_Edit_Ann".toList "Book".toList
      "Edit".toList "Ann".toList (some "Ann".toList) "B1".toList 36000 36120
      [(36030, 36060)]
      (by simp only [chronoPairs]; norm_num)
      (by decide) (by decide),
    by decide⟩

/-- C6 counterexample: a running timer whose computed elapsed time is 0
is stopped by the emergency stop-all path without any ledger write and
without any buffered entry - the whole state is untouched (src/app.py
line 505 skips elapsed_seconds == 0), so a zero-duration stop is NOT
always recorded. -/
theorem zero_elapsed_emergency_stop_writes_nothing :
    emergency_stop_all_timers (fun _ _ => true) false
        (startTimer emptyState "Book_Edit_Ann".toList "Book".toList
          (some "Ann".toList) "Edit".toList "B1".toList (usOfSec 36000))
        (usOfSec 36000)
      = startTimer emptyState "Book_Edit_Ann".toList "Book".toList
          (some "Ann".toList) "Edit".toList "B1".toList (usOfSec 36000) := by
  decide

/-- C6 amended: a Stop through stop_active_timer still writes its
Completed Time Entry when the final elapsed value is 0 (here reached via
a paused timer with zero accumulated seconds), but the emergency
stop-all path skips a timer whose computed elapsed time is 0 entirely -
no ledger write and no buffered entry. -/
theorem zero_duration_stop_policy :
    (∀ (σ : AppState) (k : Str) (nowUtcUs : Int) (b : Bool) (st : PyDatetime)
        (card listName user : Str),
      dget σ.timers k = some b →
      dget σ.timerStartTimes k = some st →
      dget σ.timerAccumulatedTime k = some 0 →
      dget σ.timerPaused k = some true →
      parseTimerKey k = some (card, listName, user) →
      (∀ e0 ∈ σ.ledger, e0.timeSpentSeconds ≠ 0) →
      ∃ e : Entry, (stop_active_timer σ k nowUtcUs).ledger = σ.ledger ++ [e]
        ∧ e.timeSpentSeconds = 0)
    ∧ (∀ (wsched : Str → Nat → Bool) (nowUtcUs : Int) (σ : AppState)
        (k : Str) (st : PyDatetime),
      dget σ.timerStartTimes k = some st →
      calculate_timer_elapsed_time (some st) nowUtcUs = 0 →
      emergencyProcessTimer wsched nowUtcUs σ (k, true) = σ) := by
  constructor
  · intro σ k nowUtcUs b st card listName user hk hst hacc hpau hparse hz
    have hsec : (stopLedgerEntry σ k nowUtcUs card listName user).timeSpentSeconds
        = 0 := by
      simp [stopLedgerEntry, hst, hacc, hpau]
    have hnc : ∀ e0 ∈ σ.ledger,
        entryKey e0 ≠ entryKey (stopLedgerEntry σ k nowUtcUs card listName user) := by
      intro e0 he0 hkey
      have hsk : e0.timeSpentSeconds
          = (stopLedgerEntry σ k nowUtcUs card listName user).timeSpentSeconds :=
        congrArg (fun q => q.2.2.2.2) hkey
      exact hz e0 he0 (hsk.trans hsec)
    have hstop := stop_existing_timer_spec σ k nowUtcUs b st card listName user
      hk hst hparse hnc
    exact ⟨stopLedgerEntry σ k nowUtcUs card listName user, hstop.1, hsec⟩
  · intro wsched nowUtcUs σ k st hst hcalc
    cases hp : parseTimerKey k with
    | none => simp [emergencyProcessTimer, hst, hp]
    | some triple =>
      obtain ⟨card, listName, user⟩ := triple
      simp [emergencyProcessTimer, hst, hp, hcalc]


/-- C6 amended witness: concrete zero-duration stop (paused at the
start instant, stopped 50 seconds later) still writes a 0-second ledger
row, while the emergency path at the start instant does nothing. -/
theorem zero_duration_stop_policy_witness :
    (∃ e : Entry,
      (stop_active_timer (pauseResumeTimer (startTimer emptyState "Book_Edit_Ann".toList "Book".toList
          (some "Ann".toList) "Edit".toList "B1".toList (usOfSec 36000))
          "Book_Edit_Ann".toList (usOfSec 36000))
          "Book_Edit_Ann".toList (usOfSec 36050)).ledger
        = (pauseResumeTimer (startTimer emptyState "Book_Edit_Ann".toList "Book".toList
          (some "Ann".toList) "Edit".toList "B1".toList (usOfSec 36000))
          "Book_Edit_Ann".toList (usOfSec 36000)).ledger ++ [e]
      ∧ e.timeSpentSeconds = 0)
    ∧ emergencyProcessTimer (fun _ _ => true) (usOfSec 36000)
        (startTimer emptyState "Book_Edit_Ann".toList "Book".toList
          (some "Ann".toList) "Edit".toList "B1".toList (usOfSec 36000))
        ("Book_Edit_Ann".toList, true)
      = (startTimer emptyState "Book_Edit_Ann".toList "Book".toList
          (some "Ann".toList) "Edit".toList "B1".toList (usOfSec 36000)) :=
  ⟨zero_duration_stop_policy.1 (pauseResumeTimer (startTimer emptyState "Book_Edit_Ann".toList "Book".toList
          (some "Ann".toList) "Edit".toList "B1".toList (usOfSec 36000))
          "Book_Edit_Ann".toList (usOfSec 36000))
      "Book_Edit_Ann".toList (usOfSec 36050) true (bstOfUtcUs (usOfSec 36000))
      "Book".toList "Edit".toList "Ann".toList
      (by decide) (by decide) (by decide) (by decide) (by decide) (by decide),
    zero_duration_stop_policy.2 (fun _ _ => true) (usOfSec 36000)
      (startTimer emptyState "Book_Edit_Ann".toList "Book".toList
          (some "Ann".toList) "Edit".toList "B1".toList (usOfSec 36000))
      "Book_Edit_Ann".toList (bstOfUtcUs (usOfSec 36000))
      (by decide) (by decide)⟩

/-- C7 counterexample: under a schedule whose first attempt fails and
whose second would succeed, save_active_timer,
update_active_timer_state, remove_active_timer and stop_active_timer's
ledger write all fail after a single attempt (reporting an error),
whereas the spec's retry-up-to-3 policy would succeed on attempt two -
so these writes are not retried as claimed. -/
theorem store_writes_not_retried :
    save_active_timer_result (fun a => decide (0 < a)) = ⟨1, false, true⟩
      ∧ update_active_timer_state_result (fun a => decide (0 < a))
          = ⟨1, false, true⟩
      ∧ remove_active_timer_result (fun a => decide (0 < a)) = ⟨1, false, true⟩
      ∧ stop_ledger_write_result (fun a => decide (0 < a)) = ⟨1, false, true⟩
      ∧ specRetriedWrite (fun a => decide (0 < a)) = ⟨2, true, false⟩ := by
  decide

/-- C7 amended: the store writes (save, update, remove) and the normal
Stop ledger write are attempted exactly once, reporting an error exactly
when that one attempt fails; only the emergency-stop ledger write is
retried, up to 3 attempts, succeeding exactly when one of the three
attempts succeeds. -/
theorem write_attempt_policy (ok : Nat → Bool) :
    save_active_timer_result ok = ⟨1, ok 0, !ok 0⟩
      ∧ update_active_timer_state_result ok = ⟨1, ok 0, !ok 0⟩
      ∧ remove_active_timer_result ok = ⟨1, ok 0, !ok 0⟩
      ∧ stop_ledger_write_result ok = ⟨1, ok 0, !ok 0⟩
      ∧ (emergency_write_result ok).attemptsMade ≤ 3
      ∧ (emergency_write_result ok).succeeded = (ok 0 || ok 1 || ok 2) := by
  cases h0 : ok 0 <;> cases h1 : ok 1 <;> cases h2 : ok 2 <;>
    simp [save_active_timer_result, update_active_timer_state_result,
      remove_active_timer_result, stop_ledger_write_result,
      emergency_write_result, firstOkAttempt, h0, h1, h2]

/-- C8 counterexample: with two timers running in local memory (one
started 120 seconds before the store failure, one at the failure
instant) and a fully available ledger, emergency recovery writes only
one Completed Time Entry and buffers nothing - the zero-elapsed timer
gets no write at all, so an entry is not written for EVERY running
timer as claimed. -/
theorem emergency_recovery_skips_zero_timer :
    ((emergency_stop_all_timers (fun _ _ => true) true
        (startTimer
          (startTimer emptyState "BookA_Edit_Ann".toList "BookA".toList
            (some "Ann".toList) "Edit".toList "B1".toList (usOfSec 36000))
          "BookB_Proof_Bob".toList "BookB".toList
          (some "Bob".toList) "Proof".toList "B1".toList (usOfSec 36120))
        (usOfSec 36120)).ledger).length = 1
      ∧ (emergency_stop_all_timers (fun _ _ => true) true
          (startTimer
            (startTimer emptyState "BookA_Edit_Ann".toList "BookA".toList
              (some "Ann".toList) "Edit".toList "B1".toList (usOfSec 36000))
            "BookB_Proof_Bob".toList "BookB".toList
            (some "Bob".toList) "Proof".toList "B1".toList (usOfSec 36120))
          (usOfSec 36120)).emergencySavedTimes = [] := by
  decide

/-- C8 amended: on store failure, every locally running timer with a
POSITIVE computed elapsed time gets a Completed Time Entry written
directly to the ledger with elapsed = Duration Calculator(start_time)
(first conjunct); when the ledger write fails all three attempts the
entry is buffered in local memory instead of lost (second and third
conjuncts), and a later recovery pass with a reachable ledger writes the
buffered entry out and clears the buffer (final conjunct). -/
theorem emergency_recovery_spec (σ : AppState) (k : Str) (st : PyDatetime)
    (card listName user : Str) (nowUtcUs : Int) (clearOk : Bool)
    (htimers : σ.timers = [(k, true)])
    (hst : dget σ.timerStartTimes k = some st)
    (hparse : parseTimerKey k = some (card, listName, user))
    (hpos : 0 < calculate_timer_elapsed_time (some st) nowUtcUs) :
    (emergency_stop_all_timers (fun _ _ => true) clearOk σ nowUtcUs).ledger
        = σ.ledger ++
          [⟨card, user, listName,
            calculate_timer_elapsed_time (some st) nowUtcUs,
            pyDate st, st, "Manual Entry".toList⟩]
      ∧ (emergency_stop_all_timers (fun _ _ => false) clearOk σ nowUtcUs).ledger
          = σ.ledger
      ∧ (emergency_stop_all_timers (fun _ _ => false) clearOk σ
          nowUtcUs).emergencySavedTimes
          = σ.emergencySavedTimes ++
            [⟨card, user, listName,
              calculate_timer_elapsed_time (some st) nowUtcUs, st⟩]
      ∧ (∀ (sv : EmergencySave) (σr : AppState) (ok : Nat → Bool),
          σr.emergencySavedTimes = [sv] → ok 0 = true →
          (recover_emergency_saved_times ok σr).ledger
              = σr.ledger ++ [entryOfSave sv]
            ∧ (recover_emergency_saved_times ok σr).emergencySavedTimes = []) := by
  refine ⟨?_, ?_, ?_, ?_⟩
  · simp only [emergency_stop_all_timers, htimers, List.foldl_cons, List.foldl_nil]
    cases clearOk <;>
      simp [emergencyProcessTimer, hst, hparse, hpos, firstOkAttempt]
  · simp only [emergency_stop_all_timers, htimers, List.foldl_cons, List.foldl_nil]
    cases clearOk <;>
      simp [emergencyProcessTimer, hst, hparse, hpos, firstOkAttempt]
  · simp only [emergency_stop_all_timers, htimers, List.foldl_cons, List.foldl_nil]
    cases clearOk <;>
      simp [emergencyProcessTimer, hst, hparse, hpos, firstOkAttempt]
  · intro sv σr ok hbuf hok
    constructor <;> simp [recover_emergency_saved_times, hbuf, hok, List.enum]


/-- C8 witness: one timer whose start_time is 120 seconds in the past
leads to a ledger write of exactly 120 elapsed seconds, or, when all
write attempts fail, to a buffered 120-second entry that a later
recovery pass flushes. -/
theorem emergency_recovery_spec_witness :
    ((emergency_stop_all_timers (fun _ _ => true) true
        (startTimer emptyState "Book_Edit_Ann".toList "Book".toList
          (some "Ann".toList) "Edit".toList "B1".toList (usOfSec 36000)) (usOfSec 36120)).ledger
        = (startTimer emptyState "Book_Edit_Ann".toList "Book".toList
          (some "Ann".toList) "Edit".toList "B1".toList (usOfSec 36000)).ledger ++
          [⟨"Book".toList, "Ann".toList, "Edit".toList,
            calculate_timer_elapsed_time (some (bstOfUtcUs (usOfSec 36000)))
              (usOfSec 36120),
            pyDate (bstOfUtcUs (usOfSec 36000)), bstOfUtcUs (usOfSec 36000),
            "Manual Entry".toList⟩]
      ∧ (emergency_stop_all_timers (fun _ _ => false) true
          (startTimer emptyState "Book_Edit_Ann".toList "Book".toList
          (some "Ann".toList) "Edit".toList "B1".toList (usOfSec 36000)) (usOfSec 36120)).ledger
          = (startTimer emptyState "Book_Edit_Ann".toList "Book".toList
          (some "Ann".toList) "Edit".toList "B1".toList (usOfSec 36000)).ledger
      ∧ (emergency_stop_all_timers (fun _ _ => false) true
          (startTimer emptyState "Book_Edit_Ann".toList "Book".toList
          (some "Ann".toList) "Edit".toList "B1".toList (usOfSec 36000)) (usOfSec 36120)).emergencySavedTimes
          = (startTimer emptyState "Book_Edit_Ann".toList "Book".toList
          (some "Ann".toList) "Edit".toList "B1".toList (usOfSec 36000)).emergencySavedTimes ++
            [⟨"Book".toList, "Ann".toList, "Edit".toList,
              calculate_timer_elapsed_time (some (bstOfUtcUs (usOfSec 36000)))
                (usOfSec 36120), bstOfUtcUs (usOfSec 36000)⟩]
      ∧ (∀ (sv : EmergencySave) (σr : AppState) (ok : Nat → Bool),
          σr.emergencySavedTimes = [sv] → ok 0 = true →
          (recover_emergency_saved_times ok σr).ledger
              = σr.ledger ++ [entryOfSave sv]
            ∧ (recover_emergency_saved_times ok σr).emergencySavedTimes = []))
    ∧ calculate_timer_elapsed_time (some (bstOfUtcUs (usOfSec 36000)))
        (usOfSec 36120) = 120 :=
  ⟨emergency_recovery_spec (startTimer emptyState "Book_Edit_Ann".toList "Book".toList
          (some "Ann".toList) "Edit".toList "B1".toList (usOfSec 36000))
      "Book_Edit_Ann".toList (bstOfUtcUs (usOfSec 36000))
      "Book".toList "Edit".toList "Ann".toList (usOfSec 36120) true
      (by decide) (by decide) (by decide) (by decide),
    by decide⟩

/-- Session state holding exactly one active timer key with arbitrary
accumulated seconds and pause flag (and arbitrary remaining fields). -/
def singleTimerState (k : Str) (st : PyDatetime) (a : Int) (p : Bool)
    (cnts : List (Str × Nat)) (buf : List EmergencySave)
    (tbl : List TimerRecord) (led : List Entry) : AppState :=
  ⟨[(k, true)], [(k, st)], [(k, a)], [(k, p)], cnts, buf, tbl, led⟩

/-- C10: emergency recovery computes each salvaged timer's elapsed time
solely from its current start_time via the Duration Calculator - the
conclusion does not depend on the quantified accumulated_seconds a or
pause flag p, so accumulated time (all of a paused timer's recorded
time) is ignored - and a timer whose computed elapsed time is 0 is
skipped entirely: the state, ledger and buffer are left untouched. -/
theorem emergency_elapsed_from_start_time_only
    (k : Str) (st : PyDatetime) (a : Int) (p : Bool)
    (cnts : List (Str × Nat)) (buf : List EmergencySave)
    (tbl : List TimerRecord) (led : List Entry)
    (card listName user : Str) (nowUtcUs : Int)
    (hparse : parseTimerKey k = some (card, listName, user)) :
    (0 < calculate_timer_elapsed_time (some st) nowUtcUs →
      (emergency_stop_all_timers (fun _ _ => true) false
          (singleTimerState k st a p cnts buf tbl led) nowUtcUs).ledger
        = led ++
          [⟨card, user, listName,
            calculate_timer_elapsed_time (some st) nowUtcUs,
            pyDate st, st, "Manual Entry".toList⟩])
    ∧ (calculate_timer_elapsed_time (some st) nowUtcUs = 0 →
      emergency_stop_all_timers (fun _ _ => true) false
          (singleTimerState k st a p cnts buf tbl led) nowUtcUs
        = singleTimerState k st a p cnts buf tbl led) := by
  constructor
  · intro hpos
    simp [emergency_stop_all_timers, singleTimerState, emergencyProcessTimer,
      dget, hparse, hpos, firstOkAttempt]
  · intro hz
    simp [emergency_stop_all_timers, singleTimerState, emergencyProcessTimer,
      dget, hparse, hz]

/-- C10 witness: a paused timer with 5000 accumulated seconds whose
start_time is 120 seconds old is salvaged with exactly the Duration
Calculator value (120 seconds), the 5000 accumulated seconds and the
pause flag being ignored. -/
theorem emergency_elapsed_from_start_time_only_witness :
    (emergency_stop_all_timers (fun _ _ => true) false
        (singleTimerState "Book_Edit_Ann".toList (bstOfUtcUs (usOfSec 36000))
          5000 true [] [] [] [])
        (usOfSec 36120)).ledger
      = [] ++
        [⟨"Book".toList, "Ann".toList, "Edit".toList,
          calculate_timer_elapsed_time (some (bstOfUtcUs (usOfSec 36000)))
            (usOfSec 36120),
          pyDate (bstOfUtcUs (usOfSec 36000)), bstOfUtcUs (usOfSec 36000),
          "Manual Entry".toList⟩] :=
  (emergency_elapsed_from_start_time_only "Book_Edit_Ann".toList
      (bstOfUtcUs (usOfSec 36000)) 5000 true [] [] [] []
      "Book".toList "Edit".toList "Ann".toList (usOfSec 36120)
      (by decide)).1 (by decide)
